import Mathlib

/-!
# Verification of the Spotify-Songs-Analyzer pipelines

Shallow embedding of the three analysis scripts (`Artist.py`, `Genres.py`,
`Top5.py`) of the Spotify-Songs-Analyzer repository, together with proofs of
the behavioural properties stated in its specification.

Modelling conventions:
* A pandas dataframe is an ordered list of row records; SQL-nullable text
  columns are `Option String`.
* Python float arithmetic is modelled over `ℚ` (all constants appearing in
  the scripts and in the properties are exactly representable).
* `str.split(', ')` is modelled character-exactly by `pySplit` below
  (non-overlapping left-to-right scan for the two-character separator,
  `""` splitting to `[""]`, as in Python).
* `groupby` keys are taken in first-occurrence order (`dedupFirst`).  pandas
  sorts group keys lexicographically by default; the specification gives no
  ordering guarantee on output rows and no property below depends on the
  order in which the aggregated rows appear.
* `DataFrame.sort_values(..., ascending=False)` is modelled by
  `List.insertionSort` with the reversed order on the sort key.  pandas'
  default quicksort is not stable, so the relative order of tied rows is
  implementation-defined; every property proved below about the sort is
  independent of the order of tied rows.
-/

namespace SpotifyAnalyzer

/-! ## Basic list statistics (pandas `mean` / `sum` reducers) -/

/-- Sum of a list of rationals (pandas `sum`). -/
def listSum (l : List ℚ) : ℚ := l.foldr (· + ·) 0

/-- Arithmetic mean of a list of rationals (pandas `mean`); `0` on `[]`
(division by zero in `ℚ`). -/
def listMean (l : List ℚ) : ℚ := listSum l / l.length

/-- Sum of a list of naturals (pandas `sum` over an integer count column). -/
def natSum (l : List Nat) : Nat := l.foldr (· + ·) 0

/-! ## Python `str.split(', ')` -/

/-- Split a character list at every (non-overlapping, leftmost-first)
occurrence of the two-character separator `", "`; the empty list splits to
`[[]]`.  This is exactly Python's `s.split(', ')` on the character level. -/
def splitCommaSpace : List Char → List (List Char)
  | [] => [[]]
  | ',' :: ' ' :: cs => [] :: splitCommaSpace cs
  | c :: cs =>
    match splitCommaSpace cs with
    | [] => [[c]]
    | w :: ws => (c :: w) :: ws

/-- Python's `s.split(', ')` on strings. -/
def pySplit (s : String) : List String :=
  (splitCommaSpace s.toList).map (fun cs => String.mk cs)

/-! ## First-occurrence deduplication (group keys in order of appearance) -/

/-- Keep the first occurrence of every element not already in `seen`. -/
def dedupFirstAux {α : Type} [DecidableEq α] (seen : List α) : List α → List α
  | [] => []
  | k :: ks =>
    if k ∈ seen then dedupFirstAux seen ks
    else k :: dedupFirstAux (k :: seen) ks

/-- The distinct elements of a list, each at its first occurrence. -/
def dedupFirst {α : Type} [DecidableEq α] (l : List α) : List α :=
  dedupFirstAux [] l

/-! ## `Artist.py`: `split_and_aggregate`

The rows fed to `split_and_aggregate` come from the SQL query of
`get_artist_data`: one row per genre text with the artist's and the overall
average popularity.  `GRow` is the row with a (non-null) genre string;
`GRowN` keeps the SQL-nullable genre cell for the degenerate-input analysis.
-/

/-- A row of the artist/overall genre-popularity comparison dataframe. -/
structure GRow where
  genre : String
  avg_popularity_artist : ℚ
  avg_popularity_overall : ℚ
deriving DecidableEq, Repr

/-- The inner loop of `split_and_aggregate`: one output row per label of
`row['Genre'].split(', ')`, both metric fields copied unchanged. -/
def explodeRows (data : List GRow) : List GRow :=
  data.flatMap fun row =>
    (pySplit row.genre).map fun g => { row with genre := g }

/-- The group keys of `df.groupby('Genre')`: the distinct genre labels. -/
def groupKeys (data : List GRow) : List String :=
  dedupFirst (data.map (·.genre))

/-- `split_and_aggregate` of `Artist.py`: split multi-genre entries into
separate rows, then `groupby('Genre').mean()` over both metric columns. -/
def split_and_aggregate (data : List GRow) : List GRow :=
  let df := explodeRows data
  (groupKeys df).map fun g =>
    let grp := df.filter fun r => decide (r.genre = g)
    { genre := g
      avg_popularity_artist := listMean (grp.map (·.avg_popularity_artist))
      avg_popularity_overall := listMean (grp.map (·.avg_popularity_overall)) }

/-- A comparison row with the SQL-nullable genre cell. -/
structure GRowN where
  genre : Option String
  avg_popularity_artist : ℚ
  avg_popularity_overall : ℚ
deriving DecidableEq, Repr

/-- `split_and_aggregate` on nullable input: `row['Genre'].split(', ')`
raises `AttributeError` as soon as the loop meets a null genre cell
(Python `None` has no `.split`); on null-free data it behaves as
`split_and_aggregate`. -/
def split_and_aggregateN (data : List GRowN) : Except String (List GRow) :=
  if data.any fun r => r.genre.isNone then Except.error "AttributeError"
  else Except.ok (split_and_aggregate (data.filterMap fun r =>
    r.genre.map fun g => ⟨g, r.avg_popularity_artist, r.avg_popularity_overall⟩))

/-! ## `Genres.py`: `fetch_year_summary_and_plot`

The per-genre summary dataframe returned by the SQL query of
`fetch_year_summary_and_plot`, and the normalization pipeline applied to it:
`.str.split(', ')`, `.explode('Genre')`, then
`groupby('Genre').agg(mean, mean, mean, sum)`.
-/

/-- A row of the per-genre year summary (genre cell SQL-nullable). -/
structure SummaryRow where
  genre : Option String
  avgDanceability : ℚ
  avgDuration : ℚ
  avgPopularity : ℚ
  totalSongs : Nat
deriving DecidableEq, Repr

/-- An aggregated output row of the Genres pipeline (one genre label). -/
structure GenreAgg where
  genre : String
  avgDanceability : ℚ
  avgDuration : ℚ
  avgPopularity : ℚ
  totalSongs : Nat
deriving DecidableEq, Repr

/-- `.str.split(', ')` followed by `.explode('Genre')`: a null genre cell is
mapped to null by `.str.split` and kept as a single row by `.explode`; a
string cell becomes one row per label with the metric columns copied. -/
def explodeSummary (rows : List SummaryRow) : List SummaryRow :=
  rows.flatMap fun r =>
    match r.genre with
    | none => [r]
    | some s => (pySplit s).map fun g => { r with genre := some g }

/-- The group keys of `groupby('Genre')`: null keys are dropped (pandas
`dropna=True` default), the rest deduplicated. -/
def summaryKeys (rows : List SummaryRow) : List String :=
  dedupFirst (rows.filterMap (·.genre))

/-- `groupby('Genre').agg(...)`: rate columns reduced by `mean`,
`TotalSongs` by `sum`; rows with a null genre belong to no group. -/
def aggSummary (rows : List SummaryRow) : List GenreAgg :=
  (summaryKeys rows).map fun g =>
    let grp := rows.filter fun r => decide (r.genre = some g)
    { genre := g
      avgDanceability := listMean (grp.map (·.avgDanceability))
      avgDuration := listMean (grp.map (·.avgDuration))
      avgPopularity := listMean (grp.map (·.avgPopularity))
      totalSongs := natSum (grp.map (·.totalSongs)) }

/-- The genre-normalization pipeline of `fetch_year_summary_and_plot`. -/
def normalizeSummary (rows : List SummaryRow) : List GenreAgg :=
  aggSummary (explodeSummary rows)

/-- `fetch_year_summary_and_plot`, modelled on the query result: on an empty
result the "no data available" message is printed and the normalization,
display and plotting stages are skipped (`none`); otherwise the normalized
summary is what gets displayed and plotted (`some`). -/
def fetch_year_summary_and_plot (dfSummary : List SummaryRow) :
    Option (List GenreAgg) :=
  if dfSummary.isEmpty then none
  else some (normalizeSummary dfSummary)

/-! ## `Top5.py`: year validation, ranking and top-N selection -/

/-- `validate_years` of `Top5.py`. -/
def validate_years (start_year end_year : Int) : Bool :=
  if start_year < 1998 ∨ end_year > 2020 ∨ start_year > end_year then false
  else true

/-- A row of the per-(artist, year) query result of `get_artist_data`. -/
structure ArtistYearRow where
  artistName : String
  year : Int
  num_songs : ℚ
  avg_popularity : ℚ
deriving DecidableEq, Repr

/-- An `ArtistYearRow` after `calculate_rank_value` added `rank_value`. -/
structure RankedRow extends ArtistYearRow where
  rank_value : ℚ
deriving DecidableEq, Repr

/-- A `RankedRow` after `get_top_artists` added `avg_rank_value`. -/
structure AvgRankedRow extends RankedRow where
  avg_rank_value : ℚ
deriving DecidableEq, Repr

/-- `calculate_rank_value`: adds the column
`rank_value = num_songs * weight_x + avg_popularity * weight_y` to the
dataframe and returns the (mutated) dataframe itself. -/
def calculate_rank_value (data : List ArtistYearRow) (weight_x weight_y : ℚ) :
    List RankedRow :=
  data.map fun r => ⟨r, r.num_songs * weight_x + r.avg_popularity * weight_y⟩

/-- `groupby('ArtistName')['rank_value'].transform('mean')` evaluated at one
artist: the mean of `rank_value` over that artist's rows. -/
def avgRankFor (data : List RankedRow) (name : String) : ℚ :=
  listMean ((data.filter fun r => decide (r.artistName = name)).map (·.rank_value))

/-- The column assignment
`data['avg_rank_value'] = data.groupby('ArtistName')['rank_value'].transform('mean')`. -/
def addAvgRank (data : List RankedRow) : List AvgRankedRow :=
  data.map fun r => ⟨r, avgRankFor data r.artistName⟩

/-- The sort key order of `sort_values(by='avg_rank_value', ascending=False)`:
descending in `avg_rank_value`. -/
abbrev rankDesc (x y : AvgRankedRow) : Prop :=
  y.avg_rank_value ≤ x.avg_rank_value

instance : IsTotal AvgRankedRow rankDesc :=
  ⟨fun x y => le_total y.avg_rank_value x.avg_rank_value⟩

instance : IsTrans AvgRankedRow rankDesc :=
  ⟨fun _ _ _ h h' => le_trans h' h⟩

/-- `drop_duplicates('ArtistName')` (keep first): keep each row whose artist
name was not seen earlier. -/
def dropDupByName (seen : List String) : List AvgRankedRow → List AvgRankedRow
  | [] => []
  | r :: rs =>
    if r.artistName ∈ seen then dropDupByName seen rs
    else r :: dropDupByName (r.artistName :: seen) rs

/-- The artist names selected by `get_top_artists`:
`sort_values(by='avg_rank_value', ascending=False).drop_duplicates('ArtistName').head(top_n)['ArtistName']`. -/
def selectedArtists (data : List RankedRow) (top_n : Nat) : List String :=
  ((dropDupByName [] (List.insertionSort rankDesc (addAvgRank data))).take top_n).map
    (·.artistName)

/-- `get_top_artists`: add `avg_rank_value`, pick the `top_n` artists with
the highest `avg_rank_value`, and return
`data[data['ArtistName'].isin(top_artists['ArtistName'])]` — every row of
the (augmented) dataframe whose artist is selected. -/
def get_top_artists (data : List RankedRow) (top_n : Nat) : List AvgRankedRow :=
  (addAvgRank data).filter fun r => decide (r.artistName ∈ selectedArtists data top_n)

/-- The distinct artist names of the dataframe, in order of appearance. -/
def artistNames (data : List RankedRow) : List String :=
  dedupFirst (data.map (·.artistName))

/-- `get_top_5_artists_by_year_range`, modelled on the query result: on an
empty result the "no data found" message is printed and ranking, display and
plotting are skipped (`none`); otherwise the ranked top-5 rows are what gets
displayed and plotted (`some`).  Default weights `0.5`/`0.5`, default
`top_n = 5`. -/
def get_top_5_artists_by_year_range (artist_data : List ArtistYearRow) :
    Option (List AvgRankedRow) :=
  if artist_data.isEmpty then none
  else some (get_top_artists (calculate_rank_value artist_data (1/2) (1/2)) 5)

/-! ## Explicit-state-passing view of the in-place column assignments

`calculate_rank_value` and `get_top_artists` mutate the dataframe passed to
them (`data['rank_value'] = ...`, `data['avg_rank_value'] = ...`).  Each
state function returns the pair (caller's dataframe after the call, value
returned by the function).
-/

/-- `calculate_rank_value` as (post-call state, returned value): the function
returns the mutated input dataframe itself. -/
def calculate_rank_valueState (data : List ArtistYearRow) (wx wy : ℚ) :
    List RankedRow × List RankedRow :=
  (calculate_rank_value data wx wy, calculate_rank_value data wx wy)

/-- `get_top_artists` as (post-call state, returned value): the caller's
dataframe gains the `avg_rank_value` column; the returned value is the
filtered selection. -/
def get_top_artistsState (data : List RankedRow) (top_n : Nat) :
    List AvgRankedRow × List AvgRankedRow :=
  (addAvgRank data, get_top_artists data top_n)

/-! ## Helper lemmas -/

lemma listMean_singleton (x : ℚ) : listMean [x] = x := by
  simp [listMean, listSum]

lemma listSum_const {l : List ℚ} {c : ℚ} (hc : ∀ x ∈ l, x = c) :
    listSum l = l.length * c := by
  induction l with
  | nil => simp [listSum]
  | cons a t ih =>
    have ha : a = c := hc a (List.mem_cons_self a t)
    have ht : listSum t = t.length * c := ih fun x hx => hc x (List.mem_cons_of_mem a hx)
    simp only [listSum, List.foldr_cons] at ht ⊢
    rw [ha, ht, List.length_cons]
    push_cast
    ring

lemma listMean_const {l : List ℚ} {c : ℚ} (h : l ≠ []) (hc : ∀ x ∈ l, x = c) :
    listMean l = c := by
  have h0 : l.length ≠ 0 := fun hh => h (List.length_eq_zero.mp hh)
  have hn : (l.length : ℚ) ≠ 0 := Nat.cast_ne_zero.mpr h0
  rw [listMean, listSum_const hc, mul_comm, mul_div_assoc, div_self hn, mul_one]

lemma splitCommaSpace_ne_nil (cs : List Char) : splitCommaSpace cs ≠ [] := by
  induction cs with
  | nil => simp [splitCommaSpace]
  | cons c cs ih =>
    rw [splitCommaSpace.eq_def]
    split
    · simp
    · simp
    · rename_i hguard heq
      injection heq with hc hcs
      subst hc
      subst hcs
      rcases h : splitCommaSpace cs with _ | ⟨w, ws⟩
      · exact absurd h ih
      · simp [h]

lemma pySplit_ne_nil (s : String) : pySplit s ≠ [] := by
  simpa [pySplit] using splitCommaSpace_ne_nil s.toList

lemma mem_dedupFirstAux {α : Type} [DecidableEq α] (seen l : List α) (a : α) :
    a ∈ dedupFirstAux seen l ↔ a ∈ l ∧ a ∉ seen := by
  induction l generalizing seen with
  | nil => simp [dedupFirstAux]
  | cons k ks ih =>
    by_cases hk : k ∈ seen
    · rw [dedupFirstAux, if_pos hk, ih]
      constructor
      · rintro ⟨h1, h2⟩; exact ⟨List.mem_cons_of_mem k h1, h2⟩
      · rintro ⟨h1, h2⟩
        rcases List.mem_cons.mp h1 with h | h
        · exact absurd (h ▸ hk) h2
        · exact ⟨h, h2⟩
    · rw [dedupFirstAux, if_neg hk]
      by_cases hak : a = k
      · subst hak
        simp [hk]
      · rw [List.mem_cons, ih]
        simp [hak, List.mem_cons]

lemma mem_dedupFirst {α : Type} [DecidableEq α] (l : List α) (a : α) :
    a ∈ dedupFirst l ↔ a ∈ l := by
  simp [dedupFirst, mem_dedupFirstAux]

lemma nodup_dedupFirstAux {α : Type} [DecidableEq α] (seen l : List α) :
    (dedupFirstAux seen l).Nodup := by
  induction l generalizing seen with
  | nil => simp [dedupFirstAux]
  | cons k ks ih =>
    by_cases hk : k ∈ seen
    · rw [dedupFirstAux, if_pos hk]; exact ih seen
    · rw [dedupFirstAux, if_neg hk]
      refine List.nodup_cons.mpr ⟨fun hmem => ?_, ih (k :: seen)⟩
      exact ((mem_dedupFirstAux (k :: seen) ks k).mp hmem).2 (List.mem_cons_self k seen)

lemma nodup_dedupFirst {α : Type} [DecidableEq α] (l : List α) :
    (dedupFirst l).Nodup :=
  nodup_dedupFirstAux [] l

lemma dedupFirstAux_eq_self {α : Type} [DecidableEq α] :
    ∀ l : List α, l.Nodup → ∀ seen : List α,
      (∀ x ∈ l, x ∉ seen) → dedupFirstAux seen l = l
  | [], _, _, _ => rfl
  | k :: ks, h, seen, hd => by
    have hk : k ∉ seen := hd k (List.mem_cons_self k ks)
    have h2 := List.nodup_cons.mp h
    rw [dedupFirstAux, if_neg hk,
      dedupFirstAux_eq_self ks h2.2 (k :: seen) ?_]
    intro x hx
    rw [List.mem_cons]
    rintro (rfl | hxs)
    · exact h2.1 hx
    · exact hd x (List.mem_cons_of_mem k hx) hxs

lemma dedupFirst_eq_self {α : Type} [DecidableEq α] {l : List α} (h : l.Nodup) :
    dedupFirst l = l :=
  dedupFirstAux_eq_self l h [] (by simp)

lemma dedupFirst_toFinset {α : Type} [DecidableEq α] (l : List α) :
    (dedupFirst l).toFinset = l.toFinset := by
  ext a
  simp [List.mem_toFinset, mem_dedupFirst]

lemma length_dedupFirst_eq_card {α : Type} [DecidableEq α] (l : List α) :
    (dedupFirst l).length = l.toFinset.card := by
  rw [← dedupFirst_toFinset, List.toFinset_card_of_nodup (nodup_dedupFirst l)]

/-! ## C7: year-range validation -/

/-- **C7**: for all integer inputs `start` and `end`, `validate_years` returns
`true` iff `1998 ≤ start ≤ end ≤ 2020`. -/
theorem c7_validate_years (start_year end_year : Int) :
    validate_years start_year end_year = true ↔
      1998 ≤ start_year ∧ start_year ≤ end_year ∧ end_year ≤ 2020 := by
  by_cases h : start_year < 1998 ∨ end_year > 2020 ∨ start_year > end_year
  · rw [validate_years, if_pos h]
    constructor
    · intro hh
      exact absurd hh (by simp)
    · intro hq
      exact absurd h (by omega)
  · rw [validate_years, if_neg h]
    constructor
    · intro _
      omega
    · intro _
      rfl

/-! ## C3: the rank-value formula -/

/-- **C3**: for every per-(artist, year) row and any weights, the computed
rank value equals `weight_x * song_count + weight_y * avg_popularity`; with
weights 0.5/0.5, song_count 10 and popularity 50 give rank value 30,
song_count 5 and popularity 90 give 47.5, and the latter ranks above the
former. -/
theorem c3_rank_value :
    (∀ (data : List ArtistYearRow) (weight_x weight_y : ℚ),
        (calculate_rank_value data weight_x weight_y).map (·.rank_value)
          = data.map fun r => weight_x * r.num_songs + weight_y * r.avg_popularity) ∧
    (calculate_rank_value
        [⟨"A", 2000, 10, 50⟩, ⟨"B", 2000, 5, 90⟩] (1/2) (1/2)).map (·.rank_value)
      = [30, 95/2] ∧
    (30 : ℚ) < 95/2 := by
  refine ⟨fun data wx wy => ?_, ?_, by norm_num⟩
  · simp only [calculate_rank_value, List.map_map]
    exact List.map_congr_left fun r _ => by dsimp; ring
  · simp only [calculate_rank_value, List.map_cons, List.map_nil]
    norm_num

/-! ## C6: empty query results signal "no data" and skip downstream stages -/

/-- **C6**: an empty query result makes each pipeline yield the explicit
"no data" signal (`none`) instead of raising, and only then: the downstream
aggregation/display/plotting stages receive data (`some`) exactly on
non-empty query results. -/
theorem c6_empty_result :
    (∀ artist_data : List ArtistYearRow,
        get_top_5_artists_by_year_range artist_data = none ↔ artist_data = []) ∧
    (∀ dfSummary : List SummaryRow,
        fetch_year_summary_and_plot dfSummary = none ↔ dfSummary = []) := by
  constructor
  · intro l
    cases l <;> simp [get_top_5_artists_by_year_range]
  · intro l
    cases l <;> simp [fetch_year_summary_and_plot]

/-! ## C10: the in-place column additions are frame-exact -/

/-- **C10**: `calculate_rank_value` adds exactly the `rank_value` column to
the caller's dataframe and `get_top_artists` adds exactly the
`avg_rank_value` column, leaving every pre-existing column and every row
unchanged (projecting the added column away returns the input row list
verbatim); and the value `calculate_rank_value` returns is the mutated
dataframe itself, not a copy. -/
theorem c10_in_place_columns (data : List ArtistYearRow) (d : List RankedRow)
    (weight_x weight_y : ℚ) (top_n : Nat) :
    (calculate_rank_valueState data weight_x weight_y).1.map (·.toArtistYearRow)
        = data ∧
    (calculate_rank_valueState data weight_x weight_y).2
        = (calculate_rank_valueState data weight_x weight_y).1 ∧
    (get_top_artistsState d top_n).1.map (·.toRankedRow) = d := by
  refine ⟨?_, rfl, ?_⟩
  · simp only [calculate_rank_valueState, calculate_rank_value, List.map_map]
    exact List.map_id data
  · simp only [get_top_artistsState, addAvgRank, List.map_map]
    exact List.map_id d

/-! ## Concrete evaluations of the normalizers on the spec's example data -/

lemma split_and_aggregate_example :
    split_and_aggregate [⟨"Pop, Rock", 80, 0⟩, ⟨"Pop", 60, 0⟩]
      = [⟨"Pop", 70, 0⟩, ⟨"Rock", 80, 0⟩] := by
  have h1 : pySplit "Pop, Rock" = ["Pop", "Rock"] := by decide
  have h2 : pySplit "Pop" = ["Pop"] := by decide
  simp [split_and_aggregate, explodeRows, groupKeys, dedupFirst, dedupFirstAux,
    h1, h2, listMean, listSum]
  norm_num

lemma normalizeSummary_example :
    normalizeSummary [⟨some "Pop, Rock", 1, 2, 80, 3⟩, ⟨some "Pop", 5, 6, 60, 4⟩]
      = [⟨"Pop", 3, 4, 70, 7⟩, ⟨"Rock", 1, 2, 80, 3⟩] := by
  have h1 : pySplit "Pop, Rock" = ["Pop", "Rock"] := by decide
  have h2 : pySplit "Pop" = ["Pop"] := by decide
  simp [normalizeSummary, explodeSummary, aggSummary, summaryKeys, dedupFirst,
    dedupFirstAux, h1, h2, listMean, listSum, natSum]
  norm_num

lemma split_and_aggregate_single_example :
    split_and_aggregate [⟨"Pop, Rock", 80, 0⟩]
      = [⟨"Pop", 80, 0⟩, ⟨"Rock", 80, 0⟩] := by
  have h1 : pySplit "Pop, Rock" = ["Pop", "Rock"] := by decide
  simp [split_and_aggregate, explodeRows, groupKeys, dedupFirst, dedupFirstAux,
    h1, listMean, listSum]

/-! ## C1: the genre-normalizer contract -/

/-- **C1**: a row whose genre field holds `", "`-separated labels expands to
one row per label with every metric field copied unchanged; the expanded
rows are then grouped by label, rate metrics reduced by arithmetic mean and
count metrics by sum.  Concretely, a `"Pop, Rock"` row with popularity 80
expands to `Pop`→80 and `Rock`→80, and aggregating those with a pure
`"Pop"` row of popularity 60 yields `Pop` mean 70 (song counts summed) and
`Rock` mean 80. -/
theorem c1_genre_normalizer :
    (∀ (g : String) (d u p : ℚ) (n : Nat),
        explodeSummary [⟨some g, d, u, p, n⟩]
          = (pySplit g).map fun l => ⟨some l, d, u, p, n⟩) ∧
    explodeSummary [⟨some "Pop, Rock", 1, 2, 80, 3⟩]
      = [⟨some "Pop", 1, 2, 80, 3⟩, ⟨some "Rock", 1, 2, 80, 3⟩] ∧
    normalizeSummary [⟨some "Pop, Rock", 1, 2, 80, 3⟩, ⟨some "Pop", 5, 6, 60, 4⟩]
      = [⟨"Pop", 3, 4, 70, 7⟩, ⟨"Rock", 1, 2, 80, 3⟩] ∧
    split_and_aggregate [⟨"Pop, Rock", 80, 0⟩, ⟨"Pop", 60, 0⟩]
      = [⟨"Pop", 70, 0⟩, ⟨"Rock", 80, 0⟩] := by
  refine ⟨fun g d u p n => ?_, ?_, normalizeSummary_example,
    split_and_aggregate_example⟩
  · simp [explodeSummary]
  · have h1 : pySplit "Pop, Rock" = ["Pop", "Rock"] := by decide
    simp [explodeSummary, h1]

/-! ## C4: conservation of the overall average under normalization -/

/-- **C4 counterexample**: splitting and mean-reducing does change the
overall-average statistic on a multi-row input.  On the spec's own example
(`"Pop, Rock"` at 80 together with `"Pop"` at 60) the input column has
overall mean 70 while the normalized output column has overall mean 75. -/
theorem c4_counterexample :
    listMean ((split_and_aggregate [⟨"Pop, Rock", 80, 0⟩, ⟨"Pop", 60, 0⟩]).map
        (·.avg_popularity_artist))
      ≠ listMean (([⟨"Pop, Rock", 80, 0⟩, ⟨"Pop", 60, 0⟩] : List GRow).map
        (·.avg_popularity_artist)) := by
  rw [split_and_aggregate_example]
  norm_num [listMean, listSum]

lemma dedupFirst_ne_nil {α : Type} [DecidableEq α] {l : List α} (h : l ≠ []) :
    dedupFirst l ≠ [] := by
  rcases l with _ | ⟨x, xs⟩
  · exact absurd rfl h
  · rw [dedupFirst, dedupFirstAux]
    simp

/-- **C4 amended**: splitting one composite row into its labels and
mean-reducing copies the source value to every label unchanged, so for a
single-row input the overall average is conserved (every aggregate equals
the source value and the output column's mean is the source value).  For
multi-row inputs the overall average is in general not conserved (see the
counterexample): the split replicates the source value once per label. -/
theorem c4_conservation_single_row (g : String) (av bv : ℚ) :
    (∀ r ∈ split_and_aggregate [⟨g, av, bv⟩],
        r.avg_popularity_artist = av ∧ r.avg_popularity_overall = bv) ∧
    listMean ((split_and_aggregate [⟨g, av, bv⟩]).map
        (·.avg_popularity_artist)) = av ∧
    listMean ((split_and_aggregate [⟨g, av, bv⟩]).map
        (·.avg_popularity_overall)) = bv := by
  have he : explodeRows [⟨g, av, bv⟩] = (pySplit g).map fun l => ⟨l, av, bv⟩ := by
    simp [explodeRows]
  have hdf : ∀ r ∈ explodeRows [⟨g, av, bv⟩],
      r.avg_popularity_artist = av ∧ r.avg_popularity_overall = bv := by
    rw [he]
    intro r hr
    rcases List.mem_map.mp hr with ⟨l, _, rfl⟩
    exact ⟨rfl, rfl⟩
  have hgrp : ∀ k ∈ groupKeys (explodeRows [⟨g, av, bv⟩]),
      (explodeRows [⟨g, av, bv⟩]).filter (fun r => decide (r.genre = k)) ≠ [] := by
    intro k hk hnil
    rw [groupKeys, mem_dedupFirst] at hk
    rcases List.mem_map.mp hk with ⟨r, hr, hrg⟩
    have : r ∈ (explodeRows [⟨g, av, bv⟩]).filter (fun r => decide (r.genre = k)) :=
      List.mem_filter.mpr ⟨hr, by simp [hrg]⟩
    simp [hnil] at this
  have hout : ∀ r ∈ split_and_aggregate [⟨g, av, bv⟩],
      r.avg_popularity_artist = av ∧ r.avg_popularity_overall = bv := by
    intro r hr
    simp only [split_and_aggregate] at hr
    rcases List.mem_map.mp hr with ⟨k, hk, rfl⟩
    have hne := hgrp k hk
    constructor
    · refine listMean_const (fun hm => hne ?_) ?_
      · simpa using hm
      · intro x hx
        rcases List.mem_map.mp hx with ⟨s, hs, rfl⟩
        exact (hdf s (List.mem_of_mem_filter hs)).1
    · refine listMean_const (fun hm => hne ?_) ?_
      · simpa using hm
      · intro x hx
        rcases List.mem_map.mp hx with ⟨s, hs, rfl⟩
        exact (hdf s (List.mem_of_mem_filter hs)).2
  have hne_out : split_and_aggregate [⟨g, av, bv⟩] ≠ [] := by
    simp only [split_and_aggregate]
    intro hm
    have hkeys := List.map_eq_nil_iff.mp hm
    rw [groupKeys] at hkeys
    apply dedupFirst_ne_nil ?_ hkeys
    intro hmap
    have : explodeRows [⟨g, av, bv⟩] = [] := List.map_eq_nil_iff.mp hmap
    rw [he] at this
    exact pySplit_ne_nil g (List.map_eq_nil_iff.mp this)
  refine ⟨hout, ?_, ?_⟩
  · refine listMean_const (fun hm => hne_out ?_) ?_
    · simpa using hm
    · intro x hx
      rcases List.mem_map.mp hx with ⟨r, hr, rfl⟩
      exact (hout r hr).1
  · refine listMean_const (fun hm => hne_out ?_) ?_
    · simpa using hm
    · intro x hx
      rcases List.mem_map.mp hx with ⟨r, hr, rfl⟩
      exact (hout r hr).2

/-- **C4 amended, witness**: the single-row conservation evaluated on the
`"Pop, Rock"` row at popularity 80. -/
theorem c4_conservation_single_row_witness :
    listMean ((split_and_aggregate [⟨"Pop, Rock", 80, 0⟩]).map
        (·.avg_popularity_artist)) = 80 ∧
    (⟨"Pop", 80, 0⟩ : GRow).avg_popularity_artist = 80 := by
  have hmem : (⟨"Pop", 80, 0⟩ : GRow) ∈ split_and_aggregate [⟨"Pop, Rock", 80, 0⟩] := by
    rw [split_and_aggregate_single_example]
    exact List.mem_cons_self _ _
  exact ⟨(c4_conservation_single_row "Pop, Rock" 80 0).2.1,
    ((c4_conservation_single_row "Pop, Rock" 80 0).1 _ hmem).1⟩

/-! ## C8: degenerate genre fields -/

/-- **C8 counterexample**: the `Artist.py` normalizer does crash on a null
genre field — `row['Genre'].split(', ')` raises `AttributeError` on a row
whose genre cell is null, instead of skipping it or passing it through. -/
theorem c8_null_crash_counterexample :
    split_and_aggregateN [⟨none, 0, 0⟩] = Except.error "AttributeError" := rfl

/-- **C8 amended**: a row with an empty genre string is passed through as
its own single-label group (label `""`), the `Genres.py` pipeline skips
null-genre rows (`groupby` drops the null key), a genre label occurring
only inside composite entries still appears as a standalone aggregate row
after expansion, and the `Artist.py` normalizer completes without raising
on every null-free input; on inputs containing a null genre cell it raises
(see the counterexample). -/
theorem c8_degenerate_genres :
    (∀ av bv : ℚ, split_and_aggregate [⟨"", av, bv⟩] = [⟨"", av, bv⟩]) ∧
    (∀ r : SummaryRow, r.genre = none → normalizeSummary [r] = []) ∧
    (∀ (data : List GRow) (r : GRow) (l : String), r ∈ data →
        l ∈ pySplit r.genre → l ∈ (split_and_aggregate data).map (·.genre)) ∧
    (∀ data : List GRowN, (∀ r ∈ data, r.genre ≠ none) →
        split_and_aggregateN data
          = Except.ok (split_and_aggregate (data.filterMap fun r =>
              r.genre.map fun g =>
                ⟨g, r.avg_popularity_artist, r.avg_popularity_overall⟩))) := by
  refine ⟨?_, ?_, ?_, ?_⟩
  · intro av bv
    have h0 : pySplit "" = [""] := by decide
    simp [split_and_aggregate, explodeRows, groupKeys, dedupFirst,
      dedupFirstAux, h0, listMean, listSum]
  · intro r hr
    simp [normalizeSummary, explodeSummary, hr, aggSummary, summaryKeys,
      dedupFirst, dedupFirstAux]
  · intro data r l hr hl
    have hmap : (split_and_aggregate data).map (·.genre)
        = groupKeys (explodeRows data) := by
      simp only [split_and_aggregate, List.map_map]
      exact List.map_id _
    rw [hmap, groupKeys, mem_dedupFirst]
    refine List.mem_map.mpr
      ⟨⟨l, r.avg_popularity_artist, r.avg_popularity_overall⟩, ?_, rfl⟩
    simp only [explodeRows]
    exact List.mem_flatMap.mpr ⟨r, hr, List.mem_map.mpr ⟨l, hl, rfl⟩⟩
  · intro data hall
    have hcond : ¬(data.any fun r => r.genre.isNone) = true := by
      intro hany
      rcases List.any_eq_true.mp hany with ⟨r, hr, hb⟩
      exact hall r hr (Option.isNone_iff_eq_none.mp hb)
    rw [split_and_aggregateN, if_neg hcond]

/-- **C8 amended, witness**: the three positive parts evaluated on concrete
inputs: a null-genre summary row aggregates to nothing, `"Rock"` (present
only in the composite `"Pop, Rock"` entry) appears as a standalone label,
and the null-free singleton input is processed without raising. -/
theorem c8_degenerate_genres_witness :
    normalizeSummary [⟨none, 1, 2, 3, 4⟩] = [] ∧
    "Rock" ∈ (split_and_aggregate [⟨"Pop, Rock", 80, 0⟩, ⟨"Pop", 60, 0⟩]).map
      (·.genre) ∧
    split_and_aggregateN [⟨some "Pop", 80, 0⟩]
      = Except.ok (split_and_aggregate [⟨"Pop", 80, 0⟩]) := by
  refine ⟨c8_degenerate_genres.2.1 ⟨none, 1, 2, 3, 4⟩ rfl,
    c8_degenerate_genres.2.2.1 [⟨"Pop, Rock", 80, 0⟩, ⟨"Pop", 60, 0⟩]
      ⟨"Pop, Rock", 80, 0⟩ "Rock" (List.mem_cons_self _ _) (by decide), ?_⟩
  have h := c8_degenerate_genres.2.2.2 [⟨some "Pop", 80, 0⟩] ?_
  · exact h
  · intro r hr
    rw [List.mem_singleton] at hr
    subst hr
    simp

/-! ## C9: idempotence on already-single-label inputs -/

lemma flatMap_eq_self_of_singleton {α : Type} (f : α → List α) (l : List α)
    (h : ∀ r ∈ l, f r = [r]) : l.flatMap f = l := by
  induction l with
  | nil => rfl
  | cons r rs ih =>
    rw [List.flatMap_cons, h r (List.mem_cons_self r rs),
      ih fun s hs => h s (List.mem_cons_of_mem r hs), List.singleton_append]

lemma explodeRows_eq_self {data : List GRow}
    (h : ∀ r ∈ data, pySplit r.genre = [r.genre]) : explodeRows data = data := by
  rw [explodeRows]
  refine flatMap_eq_self_of_singleton _ data fun r hr => ?_
  rw [h r hr]
  rfl

lemma aggregate_nodup_eq_self :
    ∀ df : List GRow, (df.map (·.genre)).Nodup →
      ((df.map (·.genre)).map fun g =>
          (⟨g,
            listMean ((df.filter fun r => decide (r.genre = g)).map
              (·.avg_popularity_artist)),
            listMean ((df.filter fun r => decide (r.genre = g)).map
              (·.avg_popularity_overall))⟩ : GRow))
        = df
  | [], _ => rfl
  | r :: rs, h => by
    have h1 : r.genre ∉ rs.map (·.genre) := (List.nodup_cons.mp h).1
    have h2 : (rs.map (·.genre)).Nodup := (List.nodup_cons.mp h).2
    have hrs : rs.filter (fun s => decide (s.genre = r.genre)) = [] := by
      rw [List.filter_eq_nil_iff]
      intro s hs hgs
      exact h1 (List.mem_map.mpr ⟨s, hs, by simpa using hgs⟩)
    have hhead : (r :: rs).filter (fun s => decide (s.genre = r.genre)) = [r] := by
      rw [List.filter_cons_of_pos (by simp), hrs]
    have htail : ∀ g ∈ rs.map (·.genre),
        (r :: rs).filter (fun s => decide (s.genre = g))
          = rs.filter (fun s => decide (s.genre = g)) := by
      intro g hg
      refine List.filter_cons_of_neg ?_
      simp only [decide_eq_true_eq]
      intro hrg
      exact h1 (hrg ▸ hg)
    have htailmap : (rs.map (·.genre)).map (fun g =>
          (⟨g,
            listMean (((r :: rs).filter fun s => decide (s.genre = g)).map
              (·.avg_popularity_artist)),
            listMean (((r :: rs).filter fun s => decide (s.genre = g)).map
              (·.avg_popularity_overall))⟩ : GRow))
        = rs :=
      (List.map_congr_left fun g hg => by rw [htail g hg]).trans
        (aggregate_nodup_eq_self rs h2)
    simp only [List.map_cons, hhead, htailmap, List.map_nil, listMean_singleton]

/-- **C9**: on an input whose rows each carry exactly one genre label, with
the labels pairwise distinct, the normalizer returns the same multiset of
rows as the input — re-running normalization on already-single-label rows
is a no-op. -/
theorem c9_idempotent (data : List GRow)
    (h1 : ∀ r ∈ data, pySplit r.genre = [r.genre])
    (h2 : (data.map (·.genre)).Nodup) :
    List.Perm (split_and_aggregate data) data := by
  have he : explodeRows data = data := explodeRows_eq_self h1
  have heq : split_and_aggregate data = data := by
    simp only [split_and_aggregate, he, groupKeys, dedupFirst_eq_self h2]
    exact aggregate_nodup_eq_self data h2
  rw [heq]

/-- **C9, witness**: idempotence evaluated on a two-row single-label input. -/
theorem c9_idempotent_witness :
    List.Perm (split_and_aggregate [⟨"Pop", 80, 1⟩, ⟨"Rock", 60, 2⟩])
      [⟨"Pop", 80, 1⟩, ⟨"Rock", 60, 2⟩] :=
  c9_idempotent _ (by decide) (by decide)

/-! ## C2: top-N selection -/

lemma dropDupByName_map_name (seen : List String) (l : List AvgRankedRow) :
    (dropDupByName seen l).map (·.artistName)
      = dedupFirstAux seen (l.map (·.artistName)) := by
  induction l generalizing seen with
  | nil => rfl
  | cons r rs ih =>
    rw [dropDupByName, List.map_cons, dedupFirstAux]
    by_cases hr : r.artistName ∈ seen
    · rw [if_pos hr, if_pos hr, ih]
    · rw [if_neg hr, if_neg hr, List.map_cons, ih]

lemma dropDupByName_sublist (seen : List String) (l : List AvgRankedRow) :
    List.Sublist (dropDupByName seen l) l := by
  induction l generalizing seen with
  | nil => exact List.Sublist.refl []
  | cons r rs ih =>
    rw [dropDupByName]
    by_cases hr : r.artistName ∈ seen
    · rw [if_pos hr]
      exact List.Sublist.cons r (ih seen)
    · rw [if_neg hr]
      exact List.Sublist.cons₂ r (ih _)

lemma perm_toFinset_eq {α : Type} [DecidableEq α] {l₁ l₂ : List α}
    (h : List.Perm l₁ l₂) : l₁.toFinset = l₂.toFinset := by
  ext a
  simp [List.mem_toFinset, h.mem_iff]

lemma avg_of_mem_addAvgRank {data : List RankedRow} {r : AvgRankedRow}
    (h : r ∈ addAvgRank data) :
    r.avg_rank_value = avgRankFor data r.artistName := by
  rcases List.mem_map.mp h with ⟨s, _, rfl⟩
  rfl

lemma map_name_addAvgRank (data : List RankedRow) :
    (addAvgRank data).map (·.artistName) = data.map (·.artistName) := by
  rw [addAvgRank, List.map_map]
  rfl

lemma selectedArtists_eq_take (data : List RankedRow) (top_n : Nat) :
    selectedArtists data top_n
      = (dedupFirstAux []
          ((List.insertionSort rankDesc (addAvgRank data)).map
            (·.artistName))).take top_n := by
  rw [selectedArtists, List.map_take, dropDupByName_map_name]

/-- **C2**: `avg_rank_value` on every row is the mean of `rank_value` across
that artist's rows; the selection names at most `top_n` distinct artists
(exactly `min top_n` (number of distinct artists), with no duplicates, so
all artists when fewer than `top_n` exist); every selected artist's average
rank is at least every unselected artist's; and the returned rows are
exactly the rows of the (augmented) input belonging to the selected artist
set. -/
theorem c2_top_n_selection (data : List RankedRow) (top_n : Nat) :
    (∀ r ∈ addAvgRank data,
        r.avg_rank_value
          = listMean ((data.filter fun s => decide (s.artistName = r.artistName)).map
              (·.rank_value))) ∧
    (selectedArtists data top_n).Nodup ∧
    (selectedArtists data top_n).length = min top_n (artistNames data).length ∧
    (∀ a ∈ selectedArtists data top_n, ∀ b ∈ artistNames data,
        b ∉ selectedArtists data top_n →
          avgRankFor data b ≤ avgRankFor data a) ∧
    get_top_artists data top_n
      = (addAvgRank data).filter fun r =>
          decide (r.artistName ∈ selectedArtists data top_n) := by
  have hperm : List.Perm
      ((List.insertionSort rankDesc (addAvgRank data)).map (·.artistName))
      (data.map (·.artistName)) := by
    have h := (List.perm_insertionSort rankDesc (addAvgRank data)).map (·.artistName)
    rwa [map_name_addAvgRank] at h
  refine ⟨fun r hr => (avg_of_mem_addAvgRank hr).trans rfl, ?_, ?_, ?_, rfl⟩
  · rw [selectedArtists_eq_take]
    exact List.Nodup.sublist (List.take_sublist _ _) (nodup_dedupFirstAux _ _)
  · rw [selectedArtists_eq_take, List.length_take]
    congr 1
    rw [artistNames]
    show (dedupFirst _).length = (dedupFirst _).length
    rw [length_dedupFirst_eq_card, length_dedupFirst_eq_card, perm_toFinset_eq hperm]
  · intro a ha b hb hbnot
    rw [selectedArtists] at ha
    rcases List.mem_map.mp ha with ⟨ra, hra, rfl⟩
    have hb2 : b ∈ (dropDupByName []
        (List.insertionSort rankDesc (addAvgRank data))).map (·.artistName) := by
      rw [dropDupByName_map_name, mem_dedupFirstAux]
      refine ⟨hperm.mem_iff.mpr ?_, by simp⟩
      rw [artistNames, mem_dedupFirst] at hb
      exact hb
    rcases List.mem_map.mp hb2 with ⟨rb, hrb, rfl⟩
    have hsplitmem : rb ∈ (dropDupByName []
          (List.insertionSort rankDesc (addAvgRank data))).take top_n
        ++ (dropDupByName []
          (List.insertionSort rankDesc (addAvgRank data))).drop top_n := by
      rw [List.take_append_drop]
      exact hrb
    have hrb_drop : rb ∈ (dropDupByName []
        (List.insertionSort rankDesc (addAvgRank data))).drop top_n := by
      rcases List.mem_append.mp hsplitmem with hin | hin
      · exact absurd (List.mem_map.mpr ⟨rb, hin, rfl⟩) hbnot
      · exact hin
    have hpair : (dropDupByName []
        (List.insertionSort rankDesc (addAvgRank data))).Pairwise rankDesc :=
      List.Pairwise.sublist (dropDupByName_sublist _ _)
        (List.sorted_insertionSort rankDesc (addAvgRank data))
    have hrel : rankDesc ra rb := by
      have hsplit := hpair
      rw [← List.take_append_drop top_n (dropDupByName []
        (List.insertionSort rankDesc (addAvgRank data))), List.pairwise_append] at hsplit
      exact hsplit.2.2 ra hra rb hrb_drop
    have hmem_ra : ra ∈ addAvgRank data :=
      (List.perm_insertionSort rankDesc (addAvgRank data)).mem_iff.mp
        ((dropDupByName_sublist _ _).subset
          ((List.take_sublist _ _).subset hra))
    have hmem_rb : rb ∈ addAvgRank data :=
      (List.perm_insertionSort rankDesc (addAvgRank data)).mem_iff.mp
        ((dropDupByName_sublist _ _).subset hrb)
    have hra_avg := avg_of_mem_addAvgRank hmem_ra
    have hrb_avg := avg_of_mem_addAvgRank hmem_rb
    rw [rankDesc, hra_avg, hrb_avg] at hrel
    exact hrel

/-- **C2, witness**: the selection evaluated with `top_n = 1` on two artists
with average ranks 30 and 47: the single selected artist out-ranks the
unselected one. -/
theorem c2_top_n_selection_witness :
    (selectedArtists
        [⟨⟨"A", 2000, 10, 50⟩, 30⟩, ⟨⟨"B", 2000, 5, 90⟩, 47⟩] 1).Nodup ∧
    (selectedArtists
        [⟨⟨"A", 2000, 10, 50⟩, 30⟩, ⟨⟨"B", 2000, 5, 90⟩, 47⟩] 1).length = 1 ∧
    avgRankFor [⟨⟨"A", 2000, 10, 50⟩, 30⟩, ⟨⟨"B", 2000, 5, 90⟩, 47⟩] "A"
      ≤ avgRankFor [⟨⟨"A", 2000, 10, 50⟩, 30⟩, ⟨⟨"B", 2000, 5, 90⟩, 47⟩] "B" := by
  have hfA : List.filter (fun r => decide (r.artistName = "A"))
        [(⟨⟨"A", 2000, 10, 50⟩, 30⟩ : RankedRow), ⟨⟨"B", 2000, 5, 90⟩, 47⟩]
      = [⟨⟨"A", 2000, 10, 50⟩, 30⟩] := by decide
  have hfB : List.filter (fun r => decide (r.artistName = "B"))
        [(⟨⟨"A", 2000, 10, 50⟩, 30⟩ : RankedRow), ⟨⟨"B", 2000, 5, 90⟩, 47⟩]
      = [⟨⟨"B", 2000, 5, 90⟩, 47⟩] := by decide
  have hA : avgRankFor [⟨⟨"A", 2000, 10, 50⟩, 30⟩, ⟨⟨"B", 2000, 5, 90⟩, 47⟩] "A"
      = 30 := by
    rw [avgRankFor, hfA]
    norm_num [listMean, listSum]
  have hB : avgRankFor [⟨⟨"A", 2000, 10, 50⟩, 30⟩, ⟨⟨"B", 2000, 5, 90⟩, 47⟩] "B"
      = 47 := by
    rw [avgRankFor, hfB]
    norm_num [listMean, listSum]
  have hadd : addAvgRank [⟨⟨"A", 2000, 10, 50⟩, 30⟩, ⟨⟨"B", 2000, 5, 90⟩, 47⟩]
      = [⟨⟨⟨"A", 2000, 10, 50⟩, 30⟩, 30⟩, ⟨⟨⟨"B", 2000, 5, 90⟩, 47⟩, 47⟩] := by
    simp only [addAvgRank, List.map_cons, List.map_nil]
    rw [hA, hB]
  have hsorted : List.insertionSort rankDesc
        [⟨⟨⟨"A", 2000, 10, 50⟩, 30⟩, 30⟩, ⟨⟨⟨"B", 2000, 5, 90⟩, 47⟩, 47⟩]
      = [⟨⟨⟨"B", 2000, 5, 90⟩, 47⟩, 47⟩, ⟨⟨⟨"A", 2000, 10, 50⟩, 30⟩, 30⟩] := by
    decide
  have hdd : dropDupByName []
        [⟨⟨⟨"B", 2000, 5, 90⟩, 47⟩, 47⟩, ⟨⟨⟨"A", 2000, 10, 50⟩, 30⟩, 30⟩]
      = [⟨⟨⟨"B", 2000, 5, 90⟩, 47⟩, 47⟩, ⟨⟨⟨"A", 2000, 10, 50⟩, 30⟩, 30⟩] := by
    decide
  have hsel : selectedArtists
      [⟨⟨"A", 2000, 10, 50⟩, 30⟩, ⟨⟨"B", 2000, 5, 90⟩, 47⟩] 1 = ["B"] := by
    rw [selectedArtists, hadd, hsorted, hdd]
    decide
  have hnames : artistNames [⟨⟨"A", 2000, 10, 50⟩, 30⟩, ⟨⟨"B", 2000, 5, 90⟩, 47⟩]
      = ["A", "B"] := by decide
  refine ⟨(c2_top_n_selection _ 1).2.1, ?_, ?_⟩
  · rw [(c2_top_n_selection _ 1).2.2.1, hnames]
    decide
  · refine (c2_top_n_selection _ 1).2.2.2.1 "B" ?_ "A" ?_ ?_
    · rw [hsel]
      exact List.mem_singleton.mpr rfl
    · rw [hnames]
      simp
    · rw [hsel]
      simp

end SpotifyAnalyzer
